import Mathlib

/-! Verification of the humanoid robot control system.

Shallow embedding of the core subsystems: the safety controller
(src/safety.py, class SafetyController), the navigation system
(src/navigation.py, class NavigationSystem), the robot state machine and
gripper link (src/core.py, class Robot; src/object_handling.py, class
ObjectHandler) and the command handlers of the command-line layer
(src/main.py).  Python floats are modelled as real numbers (rationals where
no square root is involved), Python int as Int.  Python int() applied to
the nonnegative quantities appearing in this code agrees with Int.floor. -/

namespace HumanoidRobot

/-! ## Safety controller (src/safety.py) -/

/-- State of SafetyController: the fields set in its constructor.
The source starts with safety_status = False (system starts in unsafe
state) and emergency_stop = False (not triggered). -/
structure SafetyState where
  safety_status : Bool
  emergency_stop : Bool

/-- SafetyController constructor state. -/
def safety_init : SafetyState := ⟨false, false⟩

/-- SafetyController.initialise: sets safety_status to true and returns True. -/
def safety_initialise (s : SafetyState) : Bool × SafetyState :=
  (true, { s with safety_status := true })

/-- SafetyController.validate_safety: returns safety_status and not emergency_stop. -/
def validate_safety (s : SafetyState) : Bool :=
  s.safety_status && !s.emergency_stop

/-- SafetyController.trigger_emergency_stop: sets emergency_stop to true
and safety_status to false. -/
def trigger_emergency_stop (s : SafetyState) : SafetyState :=
  { s with emergency_stop := true, safety_status := false }

/-- SafetyController.check_barriers: the position argument is [x, y, z];
safe boundaries are 100 cm from the edges of the 1000 by 1000 workspace,
with inclusive comparisons (safe_min <= c <= safe_max) in the source. -/
def check_barriers (position : ℚ × ℚ × ℚ) : Bool :=
  decide (100 ≤ position.1 ∧ position.1 ≤ 900 ∧
          100 ≤ position.2.1 ∧ position.2.1 ≤ 900 ∧
          100 ≤ position.2.2 ∧ position.2.2 ≤ 900)

/-- The public operations of SafetyController.  validate_safety,
check_barriers and log_safety_event perform no assignment; initialise and
trigger_emergency_stop are the only state changes.  Robot.initialise
(src/core.py) reaches the safety state only through safety_initialise. -/
inductive SafetyOp where
  | initialiseOp : SafetyOp
  | triggerOp : SafetyOp
  | validateOp : SafetyOp
  | checkBarriersOp : (ℚ × ℚ × ℚ) → SafetyOp
  | logEventOp : String → SafetyOp

/-- Effect of one SafetyController operation on the controller state. -/
def apply_safety_op (s : SafetyState) : SafetyOp → SafetyState
  | SafetyOp.initialiseOp => (safety_initialise s).2
  | SafetyOp.triggerOp => trigger_emergency_stop s
  | SafetyOp.validateOp => s
  | SafetyOp.checkBarriersOp _ => s
  | SafetyOp.logEventOp _ => s

/-- Run a sequence of SafetyController operations. -/
def run_safety_ops (s : SafetyState) (ops : List SafetyOp) : SafetyState :=
  ops.foldl apply_safety_op s

/-- Spec wording for claim C5: every axis coordinate strictly within the
safe margin (margin 100, extent 1000). -/
def strictly_within_margin (p : ℚ × ℚ × ℚ) : Prop :=
  100 < p.1 ∧ p.1 < 900 ∧ 100 < p.2.1 ∧ p.2.1 < 900 ∧ 100 < p.2.2 ∧ p.2.2 < 900

/-! ## Navigation system (src/navigation.py)

NavigationSystem is constructed with room_dimensions defaulting to
(1000, 1000); main.py constructs it with the default, so the room
dimensions, storage bay, storage range and seeded object table are fixed
constants here.  The mutable state is the position and the list of stored
object ids. -/

/-- Room width in centimetres (default room_dimensions). -/
def room_width : ℝ := 1000

/-- Room length in centimetres (default room_dimensions). -/
def room_length : ℝ := 1000

/-- Storage bay position, top-right corner. -/
def storage_bay : ℝ × ℝ := (800, 800)

/-- Distance within which storage is possible. -/
def storage_range : ℝ := 50

/-- The seeded object table: id 1 bottom left quadrant, id 2 top right
quadrant, id 3 top left quadrant.  The dict is never mutated. -/
def objects : List (ℤ × (ℝ × ℝ)) :=
  [(1, (300, 300)), (2, (700, 700)), (3, (300, 700))]

/-- The ids of the seeded objects. -/
def object_ids : List ℤ := objects.map Prod.fst

/-- Mutable NavigationSystem state: the robot position and the
stored_objects list (appended to by store_object, never cleared). -/
structure NavState where
  position : ℝ × ℝ
  stored_objects : List ℤ

/-- NavigationSystem constructor state: position is the room centre,
no object stored. -/
noncomputable def nav_init : NavState :=
  ⟨(room_width / 2, room_length / 2), []⟩

/-- Python substring test on lists of characters: the needle is a prefix of
the haystack or an infix of its tail (an empty needle is in every string). -/
def char_list_in : List Char → List Char → Bool
  | needle, [] => needle.isEmpty
  | needle, c :: rest => needle.isPrefixOf (c :: rest) || char_list_in needle rest

/-- Python `token in direction` substring containment on strings. -/
def has_token (direction token : String) : Bool :=
  char_list_in token.toList direction.toList

/-- NavigationSystem.is_at_storage_bay: Euclidean distance from the given
position to the storage bay is at most storage_range. -/
noncomputable def is_at_storage_bay (position : ℝ × ℝ) : Bool :=
  decide (Real.sqrt ((position.1 - storage_bay.1) ^ 2 + (position.2 - storage_bay.2) ^ 2) ≤
    storage_range)

/-- NavigationSystem.is_movement_safe: reject a target outside the room
bounds; when called with carrying_object = True (the source default is
False) and the robot is not already at the storage bay, additionally reject
a target whose distance to the storage bay is not smaller than the current
distance; otherwise accept. -/
noncomputable def is_movement_safe (s : NavState) (target_x target_y : ℝ)
    (carrying_object : Bool := false) : Bool :=
  if ¬ (0 ≤ target_x ∧ target_x ≤ room_width ∧ 0 ≤ target_y ∧ target_y ≤ room_length) then
    false
  else if carrying_object = true ∧ is_at_storage_bay s.position = false then
    if Real.sqrt ((storage_bay.1 - target_x) ^ 2 + (storage_bay.2 - target_y) ^ 2) ≥
        Real.sqrt ((storage_bay.1 - s.position.1) ^ 2 + (storage_bay.2 - s.position.2) ^ 2) then
      false
    else
      true
  else
    true

/-- The step size used by NavigationSystem.walk: the base step size of 10 cm
is divided by the square root of two exactly when the label contains "north"
together with "east" or "west"; in every other case, including the labels
containing "south" with "east" or "west", it stays 10. -/
noncomputable def step_size (direction : String) : ℝ :=
  if has_token direction "north" && (has_token direction "east" || has_token direction "west") then
    10 / Real.sqrt 2
  else
    10

/-- The per-axis movement computed by NavigationSystem.walk: dx and dy start
at 0 and are assigned once per directional token present in the label; the
assignment for "south" runs after the one for "north" and overwrites it, and
likewise "west" overwrites "east". -/
noncomputable def walk_delta (direction : String) (steps : ℤ) : ℝ × ℝ :=
  (if has_token direction "west" then -((steps : ℝ) * step_size direction)
   else if has_token direction "east" then (steps : ℝ) * step_size direction
   else 0,
   if has_token direction "south" then -((steps : ℝ) * step_size direction)
   else if has_token direction "north" then (steps : ℝ) * step_size direction
   else 0)

/-- NavigationSystem.walk: compute the target from the per-axis deltas, call
is_movement_safe with its default carrying_object = False, and on success
overwrite the position and return True, otherwise leave it and return False. -/
noncomputable def walk (s : NavState) (direction : String) (steps : ℤ) : Bool × NavState :=
  let target_x := s.position.1 + (walk_delta direction steps).1
  let target_y := s.position.2 + (walk_delta direction steps).2
  if is_movement_safe s target_x target_y then
    (true, { s with position := (target_x, target_y) })
  else
    (false, s)

/-- NavigationSystem.get_available_objects: the seeded objects whose id is
not in stored_objects. -/
def get_available_objects (s : NavState) : List (ℤ × (ℝ × ℝ)) :=
  objects.filter (fun o => !(s.stored_objects.contains o.1))

/-- NavigationSystem.get_nearby_objects: id and Euclidean distance of every
available object whose distance from the current position is at most
max_distance. -/
noncomputable def get_nearby_objects (s : NavState) (max_distance : ℝ) : List (ℤ × ℝ) :=
  ((get_available_objects s).map (fun o =>
    (o.1, Real.sqrt ((o.2.1 - s.position.1) ^ 2 + (o.2.2 - s.position.2) ^ 2)))).filter
    (fun p => decide (p.2 ≤ max_distance))

/-- NavigationSystem.get_steps_to_object: None for an unknown id; otherwise
the direction is chosen by the strictly dominant axis (cardinal labels use
the dominant axis distance divided by 10 and truncated, which is its floor
since it is nonnegative) and only the tied case falls through to the
diagonal labels with the truncated Euclidean distance. -/
noncomputable def get_steps_to_object (s : NavState) (obj_id : ℤ) : Option (String × ℤ) :=
  match objects.lookup obj_id with
  | none => none
  | some obj_pos =>
    let dx := obj_pos.1 - s.position.1
    let dy := obj_pos.2 - s.position.2
    if |dx| > |dy| then
      some (if dx > 0 then "east" else "west", ⌊|dx| / 10⌋)
    else if |dy| > |dx| then
      some (if dy > 0 then "north" else "south", ⌊|dy| / 10⌋)
    else if dx > 0 ∧ dy > 0 then
      some ("north-east", ⌊Real.sqrt (dx ^ 2 + dy ^ 2) / 10⌋)
    else if dx > 0 ∧ dy < 0 then
      some ("south-east", ⌊Real.sqrt (dx ^ 2 + dy ^ 2) / 10⌋)
    else if dx < 0 ∧ dy > 0 then
      some ("north-west", ⌊Real.sqrt (dx ^ 2 + dy ^ 2) / 10⌋)
    else
      some ("south-west", ⌊Real.sqrt (dx ^ 2 + dy ^ 2) / 10⌋)

/-- NavigationSystem.get_steps_to_storage: the step count is the truncated
Euclidean distance to the storage bay divided by the 10 cm step; a cardinal
label is used when one axis exceeds 1.5 times the other, and the diagonal
label matching the sign pair otherwise. -/
noncomputable def get_steps_to_storage (s : NavState) : String × ℤ :=
  let dx := storage_bay.1 - s.position.1
  let dy := storage_bay.2 - s.position.2
  let steps : ℤ := ⌊Real.sqrt (dx ^ 2 + dy ^ 2) / 10⌋
  if |dx| > |dy| * 1.5 then
    (if dx > 0 then "east" else "west", steps)
  else if |dy| > |dx| * 1.5 then
    (if dy > 0 then "north" else "south", steps)
  else if dx > 0 ∧ dy > 0 then
    ("north-east", steps)
  else if dx > 0 ∧ dy < 0 then
    ("south-east", steps)
  else if dx < 0 ∧ dy > 0 then
    ("north-west", steps)
  else
    ("south-west", steps)

/-- Spec wording for claim C6: Euclidean distance divided by the fixed 10 cm
step unit and truncated toward zero (the floor, as the distance is
nonnegative), with the direction from the compassDirection rule: a cardinal
east or west label when the horizontal difference exceeds 1.5 times the
vertical one, symmetrically north or south, and otherwise the diagonal label
matching the sign pair. -/
noncomputable def spec_steps_to (pos target : ℝ × ℝ) : String × ℤ :=
  let dx := target.1 - pos.1
  let dy := target.2 - pos.2
  let steps : ℤ := ⌊Real.sqrt (dx ^ 2 + dy ^ 2) / 10⌋
  if |dx| > 1.5 * |dy| then
    (if dx > 0 then "east" else "west", steps)
  else if |dy| > 1.5 * |dx| then
    (if dy > 0 then "north" else "south", steps)
  else if dx > 0 ∧ dy > 0 then
    ("north-east", steps)
  else if dx > 0 ∧ dy < 0 then
    ("south-east", steps)
  else if dx < 0 ∧ dy > 0 then
    ("north-west", steps)
  else
    ("south-west", steps)

/-- NavigationSystem.store_object: if the id is not yet in stored_objects it
is appended (whether or not it is a seeded object id) and the call returns
whether the stored list now has as many entries as the object table; an
already stored id leaves the state unchanged and returns False. -/
def store_object (s : NavState) (object_id : ℤ) : Bool × NavState :=
  if object_id ∈ s.stored_objects then
    (false, s)
  else
    (decide ((s.stored_objects ++ [object_id]).length = objects.length),
     { s with stored_objects := s.stored_objects ++ [object_id] })

/-! ## Gripper link (src/object_handling.py) and robot core (src/core.py) -/

/-- State of ObjectHandler: gripper open or closed, current and maximum grip
force (the constructor sets current to 0 and maximum to 100). -/
structure HandlerState where
  gripper_status : Bool
  object_held : Bool
  current_force : ℚ
  max_grip_force : ℚ

/-- ObjectHandler constructor state. -/
def handler_init : HandlerState := ⟨false, false, 0, 100⟩

/-- ObjectHandler.grip: succeeds iff the gripper is open and the grip safety
check passes (current force below the maximum); on success the gripper
closes.  No proximity information is consulted. -/
def grip (h : HandlerState) : Bool × HandlerState :=
  if h.gripper_status = false ∧ h.current_force < h.max_grip_force then
    (true, { h with gripper_status := true, object_held := true })
  else
    (false, h)

/-- ObjectHandler.release: succeeds iff the gripper is closed; resets the
gripper, the held flag and the current force. -/
def release (h : HandlerState) : Bool × HandlerState :=
  if h.gripper_status = true then
    (true, { h with gripper_status := false, object_held := false, current_force := 0 })
  else
    (false, h)

/-- State of Robot (src/core.py): discrete state label, operational flag,
id of the held object, and the owned gripper and safety subsystems. -/
structure RobotState where
  current_state : String
  is_operational : Bool
  held_object : Option ℤ
  handler : HandlerState
  safety : SafetyState

/-- Robot constructor state: Idle, non-operational, holding nothing. -/
def robot_init : RobotState := ⟨"Idle", false, none, handler_init, safety_init⟩

/-- Robot.initialise: runs the safety initialisation (which always returns
True), the other subsystem objects are truthy, so the robot becomes
operational in state Idle and the call returns True; the except branch of
the source is unreachable in this model. -/
def robot_initialise (r : RobotState) : Bool × RobotState :=
  (true, { r with safety := (safety_initialise r.safety).2,
                  is_operational := true, current_state := "Idle" })

/-- The valid_commands table of Robot.validate_command, a dict from state
label to the list of tokens legal in that state. -/
def valid_commands : List (String × List String) :=
  [("Idle", ["walk", "turn", "grasp"]),
   ("Walking", ["stop", "turn"]),
   ("Turning", ["stop", "walk"]),
   ("Grasping", ["release"]),
   ("Error", ["reset"])]

/-- Robot.validate_command: False when the robot is not operational,
otherwise membership of the token in the row of the current state (an
unknown state yields the empty row).  The method body performs no
assignment, so it is embedded as a pure function of the state. -/
def validate_command (r : RobotState) (command : String) : Bool :=
  if r.is_operational = false then
    false
  else
    ((valid_commands.lookup r.current_state).getD []).contains command

/-- Spec wording for claim C4: the transition table as the set of pairs of a
state label and a token legal in it. -/
def command_table : List (String × String) :=
  [("Idle", "walk"), ("Idle", "turn"), ("Idle", "grasp"),
   ("Walking", "stop"), ("Walking", "turn"),
   ("Turning", "stop"), ("Turning", "walk"),
   ("Grasping", "release"),
   ("Error", "reset")]

/-- Robot.grip_object: delegate to ObjectHandler.grip and record the id as
held on success; the position and the nearby object table are not consulted. -/
def grip_object (r : RobotState) (object_id : ℤ) : Bool × RobotState :=
  let res := grip r.handler
  if res.1 = true then
    (res.1, { r with handler := res.2, held_object := some object_id })
  else
    (res.1, { r with handler := res.2 })

/-! ## Command handlers of the command-line layer (src/main.py) -/

/-- The nearest object chosen by handle_object_interaction: the minimum key
of the grippable table (the source only evaluates it on a non-empty table;
0 is an arbitrary default for the empty case). -/
def min_key (grippable : List (ℤ × ℝ)) : ℤ :=
  ((grippable.map Prod.fst).min?).getD 0

/-- The grasp branch of handle_object_interaction (src/main.py): a grip is
attempted, on the minimum grippable id, only when get_nearby_objects(100) is
non-empty; otherwise the robot state is left unchanged. -/
noncomputable def handle_grasp (r : RobotState) (nav : NavState) : RobotState :=
  let grippable := get_nearby_objects nav 100
  if grippable.isEmpty then
    r
  else
    (grip_object r (min_key grippable)).2

/-! ## Evaluation lemmas shared by several claims -/

lemma nav_init_position : nav_init.position = (500, 500) := by
  norm_num [nav_init, room_width, room_length, Prod.ext_iff]

lemma nav_init_stored : nav_init.stored_objects = [] := rfl

/-- With its default carrying_object = False, is_movement_safe is exactly
the room bounds check. -/
lemma is_movement_safe_not_carrying (s : NavState) (tx ty : ℝ) :
    is_movement_safe s tx ty =
      decide (0 ≤ tx ∧ tx ≤ room_width ∧ 0 ≤ ty ∧ ty ≤ room_length) := by
  unfold is_movement_safe
  by_cases h : 0 ≤ tx ∧ tx ≤ room_width ∧ 0 ≤ ty ∧ ty ≤ room_length
  · simp [h]
  · simp [h]

lemma is_movement_safe_true_iff (s : NavState) (tx ty : ℝ) :
    is_movement_safe s tx ty = true ↔
      (0 ≤ tx ∧ tx ≤ room_width ∧ 0 ≤ ty ∧ ty ≤ room_length) := by
  rw [is_movement_safe_not_carrying]
  exact decide_eq_true_iff

lemma walk_eq (s : NavState) (d : String) (n : ℤ) :
    walk s d n =
      (if is_movement_safe s (s.position.1 + (walk_delta d n).1)
          (s.position.2 + (walk_delta d n).2) then
        (true, ⟨(s.position.1 + (walk_delta d n).1, s.position.2 + (walk_delta d n).2),
          s.stored_objects⟩)
      else (false, s)) := rfl

lemma walk_delta_south (n : ℤ) : walk_delta "south" n = (0, -((n : ℝ) * 10)) := by
  have h1 : has_token "south" "west" = false := by decide
  have h2 : has_token "south" "east" = false := by decide
  have h3 : has_token "south" "south" = true := by decide
  have h4 : has_token "south" "north" = false := by decide
  simp [walk_delta, step_size, h1, h2, h3, h4]

lemma walk_delta_east (n : ℤ) : walk_delta "east" n = ((n : ℝ) * 10, 0) := by
  have h1 : has_token "east" "west" = false := by decide
  have h2 : has_token "east" "east" = true := by decide
  have h3 : has_token "east" "south" = false := by decide
  have h4 : has_token "east" "north" = false := by decide
  simp [walk_delta, step_size, h1, h2, h3, h4]

lemma walk_delta_north (n : ℤ) : walk_delta "north" n = (0, (n : ℝ) * 10) := by
  have h1 : has_token "north" "west" = false := by decide
  have h2 : has_token "north" "east" = false := by decide
  have h3 : has_token "north" "south" = false := by decide
  have h4 : has_token "north" "north" = true := by decide
  simp [walk_delta, step_size, h1, h2, h3, h4]

/-- The initial position is not at the storage bay: its distance to the bay
is the square root of 180000, which exceeds 50. -/
lemma not_at_bay_init : is_at_storage_bay nav_init.position = false := by
  rw [nav_init_position]
  unfold is_at_storage_bay
  apply decide_eq_false
  intro hle
  have he : (((500:ℝ), (500:ℝ)).1 - storage_bay.1) ^ 2 +
      (((500:ℝ), (500:ℝ)).2 - storage_bay.2) ^ 2 = 180000 := by
    norm_num [storage_bay]
  rw [he] at hle
  have hgt : (50:ℝ) < Real.sqrt 180000 := (Real.lt_sqrt (by norm_num)).mpr (by norm_num)
  have : storage_range = (50:ℝ) := rfl
  rw [this] at hle
  linarith

lemma safe_init_500_400 : is_movement_safe nav_init 500 400 = true :=
  (is_movement_safe_true_iff nav_init 500 400).mpr (by norm_num [room_width, room_length])

lemma walk_init_south10 : walk nav_init "south" 10 = (true, ⟨(500, 400), []⟩) := by
  rw [walk_eq, walk_delta_south, nav_init_position, nav_init_stored]
  norm_num
  exact safe_init_500_400

/-! ## Theorems for claim C1 -/

/-- Claim C1 counterexample: at the initial state every object is unstored
and the target (500, 400) of walk "south" 10 is inside the room but strictly
farther from the storage bay than the current position (500, 500); the claim
then requires is_movement_safe to reject it and walk to fail, yet
is_movement_safe accepts it and walk succeeds and moves the robot, because
the distance rule in the source is gated on the carrying_object parameter,
which walk leaves at its default False. -/
theorem c1_counterexample :
    get_available_objects nav_init ≠ [] ∧
    (0 ≤ (500:ℝ) ∧ (500:ℝ) ≤ room_width ∧ 0 ≤ (400:ℝ) ∧ (400:ℝ) ≤ room_length) ∧
    Real.sqrt ((storage_bay.1 - 500) ^ 2 + (storage_bay.2 - 400) ^ 2) >
      Real.sqrt ((storage_bay.1 - nav_init.position.1) ^ 2 +
        (storage_bay.2 - nav_init.position.2) ^ 2) ∧
    is_movement_safe nav_init 500 400 = true ∧
    (walk nav_init "south" 10).1 = true ∧
    (walk nav_init "south" 10).2.position = (500, 400) := by
  refine ⟨?_, by norm_num [room_width, room_length], ?_, safe_init_500_400, ?_, ?_⟩
  · simp [get_available_objects, nav_init, objects]
  · rw [nav_init_position]
    have e1 : (storage_bay.1 - (500:ℝ)) ^ 2 + (storage_bay.2 - 400) ^ 2 = 250000 := by
      norm_num [storage_bay]
    have e2 : (storage_bay.1 - ((500:ℝ), (500:ℝ)).1) ^ 2 +
        (storage_bay.2 - ((500:ℝ), (500:ℝ)).2) ^ 2 = 180000 := by
      norm_num [storage_bay]
    rw [e1, e2]
    exact Real.sqrt_lt_sqrt (by norm_num) (by norm_num)
  · rw [walk_init_south10]
  · rw [walk_init_south10]

/-- Claim C1 as amended: the rejection of moves that do not decrease the
distance to the storage bay applies only when is_movement_safe is called
with carrying_object = True and the robot is not already at the bay; walk
always calls it with the default False, so every in-bounds target is
accepted by walk regardless of how many objects remain unstored. -/
theorem c1_distance_rule_only_when_carrying (s : NavState) (tx ty : ℝ)
    (hin : 0 ≤ tx ∧ tx ≤ room_width ∧ 0 ≤ ty ∧ ty ≤ room_length) :
    is_movement_safe s tx ty = true ∧
    (is_at_storage_bay s.position = false →
      Real.sqrt ((storage_bay.1 - tx) ^ 2 + (storage_bay.2 - ty) ^ 2) ≥
        Real.sqrt ((storage_bay.1 - s.position.1) ^ 2 + (storage_bay.2 - s.position.2) ^ 2) →
      is_movement_safe s tx ty true = false) := by
  constructor
  · exact (is_movement_safe_true_iff s tx ty).mpr hin
  · intro hbay hdist
    unfold is_movement_safe
    rw [if_neg (not_not_intro hin), if_pos ⟨rfl, hbay⟩, if_pos hdist]

/-- Claim C1 witness: the amended theorem applied at the initial state and
the target (500, 400). -/
theorem c1_witness :
    is_movement_safe nav_init 500 400 = true ∧ is_movement_safe nav_init 500 400 true = false := by
  have h := c1_distance_rule_only_when_carrying nav_init 500 400
    (by norm_num [room_width, room_length])
  refine ⟨h.1, h.2 not_at_bay_init ?_⟩
  rw [nav_init_position]
  have e1 : (storage_bay.1 - (500:ℝ)) ^ 2 + (storage_bay.2 - 400) ^ 2 = 250000 := by
    norm_num [storage_bay]
  have e2 : (storage_bay.1 - ((500:ℝ), (500:ℝ)).1) ^ 2 +
      (storage_bay.2 - ((500:ℝ), (500:ℝ)).2) ^ 2 = 180000 := by
    norm_num [storage_bay]
  rw [e1, e2]
  exact le_of_lt (Real.sqrt_lt_sqrt (by norm_num) (by norm_num))

/-! ## Theorems for claim C3 -/

lemma emergency_stop_preserved (ops : List SafetyOp) :
    ∀ s : SafetyState, s.emergency_stop = true →
      (run_safety_ops s ops).emergency_stop = true := by
  induction ops with
  | nil => intro s h; exact h
  | cons op rest ih =>
    intro s h
    have hstep : (apply_safety_op s op).emergency_stop = true := by
      cases op <;> simp [apply_safety_op, safety_initialise, trigger_emergency_stop, h]
    exact ih _ hstep

/-- Claim C3: once trigger_emergency_stop has run, validate_safety returns
false after every further sequence of SafetyController operations, whatever
the prior safety_status was; in particular initialise (which only sets
safety_status) does not un-latch the stop, and no public operation does. -/
theorem c3_emergency_stop_latch (s : SafetyState) (ops : List SafetyOp) :
    validate_safety (run_safety_ops (trigger_emergency_stop s) ops) = false := by
  have h : (run_safety_ops (trigger_emergency_stop s) ops).emergency_stop = true :=
    emergency_stop_preserved ops (trigger_emergency_stop s) rfl
  unfold validate_safety
  rw [h]
  simp

/-! ## Theorems for claim C5 -/

/-- Claim C5 counterexample: the point (100, 100, 100) sits exactly on the
margin; check_barriers accepts it (inclusive comparisons) although it is not
strictly within the margins, refuting the claimed strict iff. -/
theorem c5_counterexample :
    check_barriers (100, 100, 100) = true ∧ ¬ strictly_within_margin (100, 100, 100) := by
  constructor
  · decide
  · intro h
    exact absurd h.1 (by norm_num)

/-- Claim C5 as amended: points with any coordinate below 100 or above 900
are rejected and points strictly inside are accepted, as claimed, but the
exact characterisation is inclusive: check_barriers p is true iff every
coordinate lies in the closed interval [100, 900]. -/
theorem c5_envelope_characterisation (p : ℚ × ℚ × ℚ) :
    (strictly_within_margin p → check_barriers p = true) ∧
    ((p.1 < 100 ∨ 900 < p.1 ∨ p.2.1 < 100 ∨ 900 < p.2.1 ∨ p.2.2 < 100 ∨ 900 < p.2.2) →
      check_barriers p = false) ∧
    (check_barriers p = true ↔
      (100 ≤ p.1 ∧ p.1 ≤ 900 ∧ 100 ≤ p.2.1 ∧ p.2.1 ≤ 900 ∧ 100 ≤ p.2.2 ∧ p.2.2 ≤ 900)) := by
  refine ⟨?_, ?_, ?_⟩
  · intro h
    rcases h with ⟨h1, h2, h3, h4, h5, h6⟩
    exact decide_eq_true_iff.mpr ⟨h1.le, h2.le, h3.le, h4.le, h5.le, h6.le⟩
  · intro h
    apply decide_eq_false
    rintro ⟨g1, g2, g3, g4, g5, g6⟩
    rcases h with h | h | h | h | h | h <;> linarith
  · exact decide_eq_true_iff

/-- Claim C5 witness: the amended characterisation applied at an interior
point and at a point outside the margin. -/
theorem c5_witness :
    check_barriers (500, 500, 500) = true ∧ check_barriers (50, 500, 500) = false :=
  ⟨(c5_envelope_characterisation (500, 500, 500)).1 (by norm_num [strictly_within_margin]),
   (c5_envelope_characterisation (50, 500, 500)).2.1 (by norm_num)⟩

/-! ## Theorems for claim C9 -/

/-- Claim C9 as amended: for a malformed direction label (one containing
none of the four compass tokens) walk computes zero deltas, so the position
is unchanged in either branch; but the call is not reported as false: it
returns the result of the safety check at the current position, hence true
whenever the current position is inside the room.  The embedding is a total
function, so no fatal fault is possible. -/
theorem c9_malformed_direction (s : NavState) (d : String) (n : ℤ)
    (h1 : has_token d "north" = false) (h2 : has_token d "south" = false)
    (h3 : has_token d "east" = false) (h4 : has_token d "west" = false) :
    (walk s d n).2.position = s.position ∧
    ((0 ≤ s.position.1 ∧ s.position.1 ≤ room_width ∧ 0 ≤ s.position.2 ∧
        s.position.2 ≤ room_length) → (walk s d n).1 = true) := by
  have hd : walk_delta d n = (0, 0) := by
    simp [walk_delta, h1, h2, h3, h4]
  rw [walk_eq, hd]
  constructor
  · rcases hb : is_movement_safe s (s.position.1 + (0, (0:ℝ)).1) (s.position.2 + (0, (0:ℝ)).2)
    · simp [hb]
    · simp [hb]
  · intro hin
    have hb : is_movement_safe s s.position.1 s.position.2 = true :=
      (is_movement_safe_true_iff s s.position.1 s.position.2).mpr hin
    simp [hb]

/-- Claim C9 counterexample: at the initial state the malformed label "blah"
contains no compass token, yet walk returns true (the claim requires false);
the position is unchanged. -/
theorem c9_counterexample :
    has_token "blah" "north" = false ∧ has_token "blah" "south" = false ∧
    has_token "blah" "east" = false ∧ has_token "blah" "west" = false ∧
    (walk nav_init "blah" 5).1 = true ∧
    (walk nav_init "blah" 5).2.position = nav_init.position := by
  have hd : walk_delta "blah" 5 = (0, 0) := by
    have g1 : has_token "blah" "north" = false := by decide
    have g2 : has_token "blah" "south" = false := by decide
    have g3 : has_token "blah" "east" = false := by decide
    have g4 : has_token "blah" "west" = false := by decide
    simp [walk_delta, g1, g2, g3, g4]
  have hb : is_movement_safe nav_init nav_init.position.1 nav_init.position.2 = true := by
    apply (is_movement_safe_true_iff nav_init nav_init.position.1 nav_init.position.2).mpr
    rw [nav_init_position]
    norm_num [room_width, room_length]
  refine ⟨by decide, by decide, by decide, by decide, ?_, ?_⟩
  · rw [walk_eq, hd]
    simp [hb]
  · rw [walk_eq, hd]
    simp [hb]

/-- Claim C9 witness: the amended theorem applied to the malformed label
"nope" from the initial state. -/
theorem c9_witness :
    (walk nav_init "nope" 7).2.position = nav_init.position ∧
    (walk nav_init "nope" 7).1 = true := by
  have h := c9_malformed_direction nav_init "nope" 7
    (by decide) (by decide) (by decide) (by decide)
  refine ⟨h.1, h.2 ?_⟩
  rw [nav_init_position]
  norm_num [room_width, room_length]

/-! ## Theorems for claim C10 -/

/-- Claim C10: walk applies no sign check to the step count.  The per-axis
deltas are odd in the step count for every direction label, and from any
position walk "north" with a negative count -k computes the target 10 times
k centimetres to the south and succeeds (moving the robot there) whenever
that reversed target passes the movement-safety check. -/
theorem c10_negative_steps_reverse :
    (∀ (d : String) (n : ℤ),
      walk_delta d (-n) = (-(walk_delta d n).1, -(walk_delta d n).2)) ∧
    (∀ (s : NavState) (k : ℤ), 0 < k →
      is_movement_safe s s.position.1 (s.position.2 - (k : ℝ) * 10) = true →
      (walk s "north" (-k)).1 = true ∧
      (walk s "north" (-k)).2.position = (s.position.1, s.position.2 - (k : ℝ) * 10)) := by
  constructor
  · intro d n
    unfold walk_delta
    cases hw : has_token d "west" <;> cases he : has_token d "east" <;>
      cases hs : has_token d "south" <;> cases hn : has_token d "north" <;>
      simp [hw, he, hs, hn, Prod.ext_iff] <;> (try push_cast) <;> (try ring)
  · intro s k hk hsafe
    have e1 : s.position.1 + ((0:ℝ), ((-k : ℤ) : ℝ) * 10).1 = s.position.1 := by
      norm_num
    have e2 : s.position.2 + ((0:ℝ), ((-k : ℤ) : ℝ) * 10).2 = s.position.2 - (k : ℝ) * 10 := by
      push_cast
      ring
    rw [walk_eq, walk_delta_north, e1, e2, hsafe]
    exact ⟨rfl, rfl⟩

/-- Claim C10 witness: the odd-sign law at "east" with 5 steps, and the
southward move walk "north" -10 from the initial state. -/
theorem c10_witness :
    walk_delta "east" (-5) = (-(walk_delta "east" 5).1, -(walk_delta "east" 5).2) ∧
    (walk nav_init "north" (-10)).1 = true ∧
    (walk nav_init "north" (-10)).2.position = (nav_init.position.1, nav_init.position.2 - 100) := by
  have h2 := c10_negative_steps_reverse.2 nav_init 10 (by norm_num) ?safe
  case safe =>
    rw [nav_init_position]
    simp only [Prod.fst, Prod.snd]
    norm_num
    exact safe_init_500_400
  refine ⟨c10_negative_steps_reverse.1 "east" 5, h2.1, ?_⟩
  rw [h2.2]
  norm_num

/-! ## Theorems for claim C2 -/

/-- Claim C2 is refuted by the code, and the code contradicts its own
comment (the step size is described as shorter for diagonal movement): the
divisor by the square root of two is applied only when the label contains
"north" together with "east" or "west", so the diagonal labels "south-east"
and "south-west" keep the full 10 cm per-axis step; walk "south-east" 1 from
the initial state moves by 10 on each axis, to (510, 490), not by 10 divided
by the square root of two. -/
theorem c2_south_diagonal_full_step :
    step_size "south-east" = 10 ∧
    step_size "south-west" = 10 ∧
    step_size "north-east" = 10 / Real.sqrt 2 ∧
    step_size "north-west" = 10 / Real.sqrt 2 ∧
    (10 : ℝ) ≠ 10 / Real.sqrt 2 ∧
    (walk nav_init "south-east" 1).1 = true ∧
    (walk nav_init "south-east" 1).2.position = (510, 490) := by
  have hse : walk_delta "south-east" 1 = (10, -10) := by
    have g1 : has_token "south-east" "west" = false := by decide
    have g2 : has_token "south-east" "east" = true := by decide
    have g3 : has_token "south-east" "south" = true := by decide
    have g4 : has_token "south-east" "north" = false := by decide
    simp [walk_delta, step_size, g1, g2, g3, g4]
  have hb : is_movement_safe nav_init (nav_init.position.1 + 10)
      (nav_init.position.2 + -10) = true := by
    apply (is_movement_safe_true_iff nav_init _ _).mpr
    rw [nav_init_position]
    norm_num [room_width, room_length]
  have hlt : (10 : ℝ) / Real.sqrt 2 < 10 := by
    have h1 : (1:ℝ) < Real.sqrt 2 := (Real.lt_sqrt (by norm_num)).mpr (by norm_num)
    exact div_lt_self (by norm_num) h1
  refine ⟨?_, ?_, ?_, ?_, ne_of_gt hlt, ?_, ?_⟩
  · unfold step_size
    rw [if_neg]
    decide
  · unfold step_size
    rw [if_neg]
    decide
  · unfold step_size
    rw [if_pos]
    decide
  · unfold step_size
    rw [if_pos]
    decide
  · rw [walk_eq, hse]
    simp [hb]
  · rw [walk_eq, hse]
    simp [hb]
    rw [nav_init_position]
    norm_num

/-! ## Theorems for claim C4 -/

/-- Claim C4: validate_command returns false whenever the robot is not
operational, for every state and token; when it is operational it returns
true exactly for the pairs of the transition table (Idle: walk, turn,
grasp; Walking: stop, turn; Turning: stop, walk; Grasping: release; Error:
reset), with an unknown state or a token outside the row yielding false.
The source method performs no assignment, so it is embedded as, and hence
is, a pure function of the state, the operational flag and the token. -/
theorem c4_validate_command_table (r : RobotState) (command : String) :
    (r.is_operational = false → validate_command r command = false) ∧
    (r.is_operational = true →
      (validate_command r command = true ↔ (r.current_state, command) ∈ command_table)) := by
  constructor
  · intro h
    unfold validate_command
    rw [if_pos h]
  · intro h
    unfold validate_command
    rw [if_neg (by simp [h])]
    by_cases h1 : r.current_state = "Idle"
    · rw [h1]; simp [valid_commands, command_table, List.lookup, List.contains]
    · by_cases h2 : r.current_state = "Walking"
      · rw [h2]; simp [valid_commands, command_table, List.lookup, List.contains]
      · by_cases h3 : r.current_state = "Turning"
        · rw [h3]; simp [valid_commands, command_table, List.lookup, List.contains]
        · by_cases h4 : r.current_state = "Grasping"
          · rw [h4]; simp [valid_commands, command_table, List.lookup, List.contains]
          · by_cases h5 : r.current_state = "Error"
            · rw [h5]; simp [valid_commands, command_table, List.lookup, List.contains]
            · simp [valid_commands, command_table, List.lookup,
                beq_eq_false_iff_ne.mpr h1, beq_eq_false_iff_ne.mpr h2,
                beq_eq_false_iff_ne.mpr h3, beq_eq_false_iff_ne.mpr h4,
                beq_eq_false_iff_ne.mpr h5, Prod.ext_iff]
              tauto

/-- Claim C4 witness: the table theorem applied to the non-operational
constructor state and to the same state made operational, on the token
walk. -/
theorem c4_witness :
    validate_command robot_init "walk" = false ∧
    (validate_command (robot_initialise robot_init).2 "walk" = true ↔
      ("Idle", "walk") ∈ command_table) :=
  ⟨(c4_validate_command_table robot_init "walk").1 rfl,
   (c4_validate_command_table (robot_initialise robot_init).2 "walk").2 rfl⟩

/-! ## Theorems for claim C6 -/

lemma walk_init_east10 : walk nav_init "east" 10 = (true, ⟨(600, 500), []⟩) := by
  rw [walk_eq, walk_delta_east, nav_init_position, nav_init_stored]
  norm_num
  exact (is_movement_safe_true_iff nav_init 600 500).mpr
    (by norm_num [room_width, room_length])

lemma floor_sqrt_50000_div_10 : ⌊Real.sqrt 50000 / 10⌋ = (22 : ℤ) := by
  have h1 : (220:ℝ) ≤ Real.sqrt 50000 :=
    (Real.le_sqrt (by norm_num) (by norm_num)).mpr (by norm_num)
  have h2 : Real.sqrt 50000 < 230 := (Real.sqrt_lt' (by norm_num)).mpr (by norm_num)
  rw [Int.floor_eq_iff]
  constructor <;> push_cast <;> nlinarith

lemma spec_steps_600_500_to_obj2 : spec_steps_to (600, 500) (700, 700) = ("north", 22) := by
  unfold spec_steps_to
  dsimp only
  have e : (((700:ℝ) - 600) ^ 2 + ((700:ℝ) - 500) ^ 2) = 50000 := by
    norm_num
  rw [e, floor_sqrt_50000_div_10]
  norm_num

/-- Claim C6 counterexample: the position (600, 500) is reached from the
initial state by walk "east" 10; from there the query for object 2 at
(700, 700) returns ("north", 20) — the vertical axis dominates without the
1.5 factor and the step count is the truncated axis distance 200 / 10 — while
the claimed rule (truncated Euclidean distance over 10 with the 1.5-factor
direction choice) gives ("north", 22). -/
theorem c6_counterexample :
    (walk nav_init "east" 10).1 = true ∧
    (walk nav_init "east" 10).2.position = (600, 500) ∧
    get_steps_to_object ((walk nav_init "east" 10).2) 2 = some ("north", 20) ∧
    spec_steps_to (600, 500) (700, 700) = ("north", 22) ∧
    get_steps_to_object ((walk nav_init "east" 10).2) 2 ≠
      some (spec_steps_to ((walk nav_init "east" 10).2.position) (700, 700)) := by
  have hobj : get_steps_to_object (⟨(600, 500), []⟩ : NavState) 2 = some ("north", 20) := by
    unfold get_steps_to_object
    have hl : objects.lookup (2:ℤ) = some ((700:ℝ), (700:ℝ)) := by
      simp [objects, List.lookup]
    rw [hl]
    norm_num
  refine ⟨?_, ?_, ?_, spec_steps_600_500_to_obj2, ?_⟩
  · rw [walk_init_east10]
  · rw [walk_init_east10]
  · rw [walk_init_east10]
    exact hobj
  · rw [walk_init_east10]
    rw [hobj]  -- the second component of walk_init_east10 gives the position
    simp [spec_steps_600_500_to_obj2]

/-- Claim C6 as amended: the storage query follows the claimed rule exactly
(truncated Euclidean distance over the 10 cm step, cardinal label when one
axis exceeds 1.5 times the other, diagonal sign-pair label otherwise), but
the object query does not: it picks the strictly dominant axis with no 1.5
factor and, for cardinal labels, returns the truncated axis distance rather
than the Euclidean one, as the concrete query from (600, 500) to object 2
shows. -/
theorem c6_storage_follows_spec_rule (s : NavState) :
    get_steps_to_storage s = spec_steps_to s.position storage_bay ∧
    get_steps_to_object (⟨(600, 500), []⟩ : NavState) 2 = some ("north", 20) ∧
    spec_steps_to (600, 500) (700, 700) = ("north", 22) := by
  refine ⟨?_, ?_, spec_steps_600_500_to_obj2⟩
  · unfold get_steps_to_storage spec_steps_to
    dsimp only
    rw [mul_comm (|storage_bay.2 - s.position.2|) (1.5:ℝ),
      mul_comm (|storage_bay.1 - s.position.1|) (1.5:ℝ)]
  · unfold get_steps_to_object
    have hl : objects.lookup (2:ℤ) = some ((700:ℝ), (700:ℝ)) := by
      simp [objects, List.lookup]
    rw [hl]
    norm_num

/-! ## Theorems for claim C7 -/

/-- Claim C7 counterexample: store_object accepts ids that are not in the
object table at all; after storing the unknown ids 99, 98 and 97 from the
initial state, the third call returns true (the stored list reaches the
length of the object table) although the stored set does not contain the
seeded object id 2, so the `true iff the stored set equals the full object
set` part of the claim fails. -/
theorem c7_counterexample :
    (store_object ((store_object ((store_object nav_init 99).2) 98).2) 97).1 = true ∧
    (2 : ℤ) ∈ object_ids ∧
    (2 : ℤ) ∉ (store_object ((store_object ((store_object nav_init 99).2) 98).2) 97).2.stored_objects := by
  refine ⟨?_, by decide, ?_⟩
  · simp [store_object, nav_init_stored, objects]
  · simp [store_object, nav_init_stored]

/-- Claim C7 as amended: storing an already stored id returns false and
leaves the stored list unchanged (the idempotence part of the claim holds);
storing a new id appends it and returns true iff the stored count reaches
the size of the object table; only when the stored ids are drawn without
repetition from the seeded object ids (as in every reachable call from the
command-line layer) is that count condition equivalent to the stored set
equalling the full object set. -/
theorem c7_store_object_characterisation (s : NavState) (object_id : ℤ) :
    (object_id ∈ s.stored_objects →
      (store_object s object_id).1 = false ∧
      (store_object s object_id).2.stored_objects = s.stored_objects) ∧
    (object_id ∉ s.stored_objects →
      (store_object s object_id).2.stored_objects = s.stored_objects ++ [object_id] ∧
      ((store_object s object_id).1 = true ↔
        (s.stored_objects ++ [object_id]).length = objects.length)) ∧
    (s.stored_objects ⊆ object_ids → s.stored_objects.Nodup →
      object_id ∈ object_ids → object_id ∉ s.stored_objects →
      ((store_object s object_id).1 = true ↔
        ∀ j ∈ object_ids, j ∈ s.stored_objects ++ [object_id])) := by
  refine ⟨?_, ?_, ?_⟩
  · intro h
    unfold store_object
    rw [if_pos h]
    exact ⟨rfl, rfl⟩
  · intro h
    unfold store_object
    rw [if_neg h]
    exact ⟨rfl, decide_eq_true_iff⟩
  · intro hsub hnodup hmem hnotmem
    have hl : (store_object s object_id).1 =
        decide ((s.stored_objects ++ [object_id]).length = objects.length) := by
      unfold store_object
      rw [if_neg hnotmem]
    have hlnodup : (s.stored_objects ++ [object_id]).Nodup := by
      refine List.Nodup.append hnodup (List.nodup_singleton _) ?_
      intro a ha hb
      rw [List.mem_singleton] at hb
      subst hb
      exact hnotmem ha
    have hlsub : ∀ x ∈ s.stored_objects ++ [object_id], x ∈ object_ids := by
      intro x hx
      rcases List.mem_append.mp hx with hx | hx
      · exact hsub hx
      · rw [List.mem_singleton] at hx
        subst hx
        exact hmem
    have hids_nodup : object_ids.Nodup := by decide
    have hids_len : object_ids.length = objects.length := List.length_map _ _
    have hc1 : (s.stored_objects ++ [object_id]).toFinset.card =
        (s.stored_objects ++ [object_id]).length := List.toFinset_card_of_nodup hlnodup
    have hc2 : object_ids.toFinset.card = object_ids.length :=
      List.toFinset_card_of_nodup hids_nodup
    have h1 : (s.stored_objects ++ [object_id]).toFinset ⊆ object_ids.toFinset := by
      intro x hx
      rw [List.mem_toFinset] at hx ⊢
      exact hlsub x hx
    rw [hl, decide_eq_true_iff]
    constructor
    · intro hlen
      have heq : (s.stored_objects ++ [object_id]).toFinset = object_ids.toFinset := by
        apply Finset.eq_of_subset_of_card_le h1
        rw [hc1, hc2, hlen, hids_len]
      intro j hj
      have hj2 : j ∈ (s.stored_objects ++ [object_id]).toFinset := by
        rw [heq, List.mem_toFinset]
        exact hj
      exact List.mem_toFinset.mp hj2
    · intro hall
      have h3 : object_ids.toFinset ⊆ (s.stored_objects ++ [object_id]).toFinset := by
        intro x hx
        rw [List.mem_toFinset] at hx ⊢
        exact hall x hx
      have heq : (s.stored_objects ++ [object_id]).toFinset = object_ids.toFinset :=
        subset_antisymm h1 h3
      calc (s.stored_objects ++ [object_id]).length
          = (s.stored_objects ++ [object_id]).toFinset.card := hc1.symm
        _ = object_ids.toFinset.card := by rw [heq]
        _ = object_ids.length := hc2
        _ = objects.length := hids_len

/-- Claim C7 witness: the amended characterisation applied to the state that
has stored ids 1 and 2 when id 3 arrives (the call completes the set and
returns true), and the idempotence part applied to a repeated id. -/
theorem c7_witness :
    ((store_object (⟨(0, 0), [1, 2]⟩ : NavState) 3).1 = true ↔
      ∀ j ∈ object_ids, j ∈ ([1, 2] : List ℤ) ++ [3]) ∧
    (store_object (⟨(0, 0), [1]⟩ : NavState) 1).1 = false :=
  ⟨(c7_store_object_characterisation (⟨(0, 0), [1, 2]⟩ : NavState) 3).2.2
     (by decide) (by decide) (by decide) (by decide),
   ((c7_store_object_characterisation (⟨(0, 0), [1]⟩ : NavState) 1).1 (by decide)).1⟩

/-! ## Theorems for claim C8 -/

/-- At the initial position (500, 500) every seeded object is at distance
square root of 80000, which exceeds 100, so the grippable table is empty. -/
lemma nearby_100_init_empty : get_nearby_objects nav_init 100 = [] := by
  have hstate : nav_init = (⟨(500, 500), []⟩ : NavState) := by
    unfold nav_init
    norm_num [room_width, room_length]
  have h80 : ¬ (Real.sqrt 80000 ≤ (100:ℝ)) := by
    have hlt : (100:ℝ) < Real.sqrt 80000 := (Real.lt_sqrt (by norm_num)).mpr (by norm_num)
    linarith
  rw [hstate]
  norm_num [get_nearby_objects, get_available_objects, objects, h80]

/-- Claim C8 counterexample: from the freshly initialised robot at the
initial navigation state, get_nearby_objects(100) is empty, yet
grip_object(5) returns true and records object 5 as held: Robot.grip_object
never consults the navigation proximity query, so the core grants the grip. -/
theorem c8_counterexample :
    get_nearby_objects nav_init 100 = [] ∧
    (grip_object (robot_initialise robot_init).2 5).1 = true ∧
    (grip_object (robot_initialise robot_init).2 5).2.held_object = some 5 := by
  refine ⟨nearby_100_init_empty, ?_, ?_⟩
  · norm_num [grip_object, grip, robot_initialise, robot_init, handler_init]
  · norm_num [grip_object, grip, robot_initialise, robot_init, handler_init]

/-- Claim C8 as amended: the proximity gate lives in the command-line
handler, not in the core: when get_nearby_objects(100) is empty the grasp
handler leaves the robot unchanged (so nothing becomes held), while
Robot.grip_object itself succeeds, with no proximity check, whenever the
gripper is open and the grip force is within its limit. -/
theorem c8_grip_gate_in_cli (r : RobotState) (nav : NavState) (object_id : ℤ) :
    (get_nearby_objects nav 100 = [] → handle_grasp r nav = r) ∧
    (r.handler.gripper_status = false →
      r.handler.current_force < r.handler.max_grip_force →
      (grip_object r object_id).1 = true ∧
      (grip_object r object_id).2.held_object = some object_id) := by
  constructor
  · intro h
    unfold handle_grasp
    rw [h]
    simp
  · intro h1 h2
    have hg : grip r.handler =
        (true, { r.handler with gripper_status := true, object_held := true }) := by
      unfold grip
      rw [if_pos ⟨h1, h2⟩]
    unfold grip_object
    rw [hg]
    exact ⟨rfl, rfl⟩

/-- Claim C8 witness: the amended theorem applied to the constructor robot
state and the initial navigation state (empty grippable table), and to a
grip of object 7 with the gripper open. -/
theorem c8_witness :
    handle_grasp robot_init nav_init = robot_init ∧
    (grip_object robot_init 7).1 = true ∧
    (grip_object robot_init 7).2.held_object = some 7 := by
  have h := c8_grip_gate_in_cli robot_init nav_init 7
  exact ⟨h.1 nearby_100_init_empty,
    (h.2 rfl (by norm_num [robot_init, handler_init])).1,
    (h.2 rfl (by norm_num [robot_init, handler_init])).2⟩

end HumanoidRobot
